import Mathlib

set_option autoImplicit false
set_option linter.unusedSectionVars false

/-!
Verification of the `cpp-simple-vector` repository: the owned-buffer
primitive `ArrayPtr` (src/simple-vector/array_ptr.h) and the two drafts of
the container `SimpleVector` (src/unnamed/part_000 and src/unnamed/part_001).

The observable state of a `SimpleVector<Type>` is its logical element
sequence `items_[0..size_)` together with `capacity_`; slots in
`[size_, capacity_)` are allocated but hold unspecified values that no
public operation ever reads before writing (`PushBack` and `Insert`
overwrite the slot exposed by `ResizeCurrentVector`; the growing branch of
`Resize` writes `Type{}` into every newly exposed slot; reallocation
value-initializes the fresh buffer).  The embedding therefore models a
vector as the pair (element list, capacity).
-/

/-- Model of `ArrayPtr<Type>` from src/simple-vector/array_ptr.h: it owns at
most one heap allocation, identified here by an abstract address; `none`
models `nullptr`. -/
structure ArrayPtr where
  raw_ptr : Option Nat
  deriving DecidableEq, Repr

namespace ArrayPtr

/-- `ArrayPtr() = default`: `raw_ptr_ = nullptr`. -/
def empty : ArrayPtr := ⟨none⟩

/-- `ArrayPtr(ArrayPtr &&other)`: `raw_ptr_ = std::exchange(other.raw_ptr_, nullptr)`.
Returns (the new object, the moved-from source). -/
def moveCtor (other : ArrayPtr) : ArrayPtr × ArrayPtr :=
  (⟨other.raw_ptr⟩, ⟨none⟩)

/-- `void swap(ArrayPtr &other)`: `std::swap(raw_ptr_, other.raw_ptr_)`. -/
def swap (a b : ArrayPtr) : ArrayPtr × ArrayPtr :=
  (⟨b.raw_ptr⟩, ⟨a.raw_ptr⟩)

/-- `operator=(ArrayPtr &&other)`: if the two pointers are equal, return
`*this` unchanged; otherwise `swap(other)`.  Returns (this, other) after the
call. -/
def moveAssign (a b : ArrayPtr) : ArrayPtr × ArrayPtr :=
  if a.raw_ptr = b.raw_ptr then (a, b) else (⟨b.raw_ptr⟩, ⟨a.raw_ptr⟩)

/-- `Type *Release()`: returns the raw handle and leaves the buffer empty.
Returns (released handle, the buffer after the call). -/
def Release (a : ArrayPtr) : Option Nat × ArrayPtr :=
  (a.raw_ptr, ⟨none⟩)

/-- `operator=(const ArrayPtr &) = default`: a SHALLOW handle copy — after
`a = b` both objects hold the same raw pointer.  (First argument: the
assigned-over target, whose old handle value is simply overwritten.) -/
def copyAssign (_ b : ArrayPtr) : ArrayPtr := ⟨b.raw_ptr⟩

/-- `~ArrayPtr()`: `delete[] raw_ptr_` — the allocation freed when this
buffer object is destroyed (none if it holds `nullptr`). -/
def dtorFrees (a : ArrayPtr) : List Nat := a.raw_ptr.toList

end ArrayPtr

/-- Observable state of a `SimpleVector<Type>`: the logical elements
`items_[0..size_)` as a list (so `size_ = data.length`) and `capacity_`. -/
structure SV (α : Type) where
  data : List α
  cap : Nat
  deriving DecidableEq, Repr

/-- `SimpleVector() = default`: `size_ = 0`, `capacity_ = 0`, empty buffer. -/
def emptySV (α : Type) : SV α := ⟨[], 0⟩

/-- Effect on the underlying buffer of
`std::copy_backward(buf + first, buf + last, buf + last + 1)` (and of the
`std::move_backward` overload, which is element-wise identical): slots
`[first+1, last+1)` receive the old contents of `[first, last)`, copied back
to front so sources are read before being overwritten; slots `[0, first]`
and `[last+1, …)` are untouched. -/
def copyBackwardShift {α : Type} (buf : List α) (first last : Nat) : List α :=
  buf.take (first + 1) ++ (buf.drop first).take (last - first) ++ buf.drop (last + 1)

/-- Effect on the underlying buffer of
`std::move(buf + first, buf + last, buf + (first - 1))` as used by `Erase`:
slots `[first-1, last-1)` receive the old contents of `[first, last)`; the
slot `last-1` keeps its (moved-from) value, which the caller immediately
hides by decrementing `size_`. -/
def moveShiftLeftOne {α : Type} (buf : List α) (first last : Nat) : List α :=
  buf.take (first - 1) ++ (buf.drop first).take (last - first) ++ buf.drop (last - 1)

/- ------------------------------------------------------------------ -/
/- Draft 0: src/unnamed/part_000                                       -/
/- ------------------------------------------------------------------ -/

namespace P0

variable {α : Type} [Inhabited α] [DecidableEq α]

/-- `Resize(new_size)` of part_000, lines 215-233.  If `new_size > capacity_`
a fresh value-initialized buffer of `max(new_size, capacity_ == 0 ? 1 :
capacity_*2)` slots is allocated, the old elements are moved in, and
`size_ = new_size` exposes the leading defaults of the fresh buffer; if
`size_ < new_size <= capacity_` the exposed slots are assigned `Type{}`;
otherwise only `size_` shrinks. -/
def Resize (v : SV α) (new_size : Nat) : SV α :=
  if new_size > v.cap then
    ⟨(v.data ++ List.replicate (max new_size (if v.cap = 0 then 1 else v.cap * 2) - v.data.length) default).take new_size,
     max new_size (if v.cap = 0 then 1 else v.cap * 2)⟩
  else if new_size > v.data.length then
    ⟨v.data ++ List.replicate (new_size - v.data.length) default, v.cap⟩
  else
    ⟨v.data.take new_size, v.cap⟩

/-- `ResizeCurrentVector()` of part_000, lines 286-296: if the vector is
full, `Resize(size_ + 1)`; otherwise just `++size_`, exposing one
already-allocated slot.  The exposed slot's content is unspecified in the
source; it is modelled as `default` because both callers (`PushBack`,
`Insert`) overwrite it before it can be read. -/
def ResizeCurrentVector (v : SV α) : SV α :=
  if v.cap ≤ v.data.length then Resize v (v.data.length + 1)
  else ⟨v.data ++ [default], v.cap⟩

/-- `PushBack(item)` of part_000, lines 106-116 (the `const&` and `&&`
overloads are element-wise identical): `ResizeCurrentVector();
items_[size_ - 1] = item;`. -/
def PushBack (v : SV α) (item : α) : SV α :=
  ⟨(ResizeCurrentVector v).data.set ((ResizeCurrentVector v).data.length - 1) item,
   (ResizeCurrentVector v).cap⟩

/-- The condition of `assert(!IsEmpty())` in part_000's `PopBack`. -/
def PopBackAssertOK (v : SV α) : Prop := ¬ v.data = []

/-- `PopBack()` of part_000, lines 118-122: `--size_` (after the assert). -/
def PopBack (v : SV α) : SV α :=
  ⟨v.data.take (v.data.length - 1), v.cap⟩

/-- `Insert(pos, value)` of part_000, lines 124-154, with the position
pointer `pos` represented by its index `pos - begin()`.  If `pos == cend()`
the call is `PushBack(value); return end() - 1;`.  Otherwise `curr_index`
is computed from the handle before any reallocation, `ResizeCurrentVector()`
grows the vector, `copy_backward` shifts `[curr_index, old end)` one slot
right, and the value is written at `curr_index`, which is returned.
Returns (the vector after the call, the index of the returned iterator). -/
def Insert (v : SV α) (pos : Nat) (value : α) : SV α × Nat :=
  if pos = v.data.length then
    (PushBack v value, v.data.length)
  else
    ((fun w => ⟨(copyBackwardShift w.data pos (w.data.length - 1)).set pos value, w.cap⟩)
       (ResizeCurrentVector v),
     pos)

/-- `Erase(pos)` of part_000, lines 156-168, with `pos` represented by its
index `curr_index = pos - begin()`.  If `pos < end() - 1` the tail
`[curr_index+1, size_)` is moved one slot left; then `--size_`.  Returns
(the vector after the call, the index of the returned iterator
`&items_[curr_index]`). -/
def Erase (v : SV α) (pos : Nat) : SV α × Nat :=
  (⟨(if pos + 1 < v.data.length
     then moveShiftLeftOne v.data (pos + 1) v.data.length
     else v.data).take (v.data.length - 1), v.cap⟩,
   pos)

/-- `At(index)` of part_000, lines 197-213 (both `const` and non-`const`
overloads): throws `std::out_of_range` iff `index >= size_`, otherwise
returns `items_[index]`.  The method writes no member, so the vector is
unchanged; the embedding is accordingly a pure observer. -/
def At (v : SV α) (index : Nat) : Except Unit α :=
  if v.data.length ≤ index then Except.error () else Except.ok (v.data.getD index default)

/-- `Reserve(new_capacity)` of part_000, lines 235-245: if
`capacity_ < new_capacity`, move the elements into a fresh buffer of exactly
`new_capacity` slots (size unchanged); otherwise do nothing. -/
def Reserve (v : SV α) (new_capacity : Nat) : SV α :=
  if v.cap < new_capacity then ⟨v.data, new_capacity⟩ else v

/-- `Clear()` of part_000, lines 247-250: `size_ = 0`, capacity untouched. -/
def Clear (v : SV α) : SV α := ⟨[], v.cap⟩

/-- `SimpleVector(const SimpleVector &other)` of part_000, lines 59-63:
allocates `other.GetCapacity()` slots and copies the `other.GetSize()`
elements, so the observable result carries `other`'s elements and
capacity. -/
def CopyCtor (other : SV α) : SV α := ⟨other.data, other.cap⟩

/-- `operator==` on `SimpleVector` (part_000, lines 299-303):
`std::equal(lhs.begin(), lhs.end(), rhs.begin(), rhs.end())`, true iff the
element sequences coincide. -/
def svEq (a b : SV α) : Bool := a.data = b.data

/-- `operator=(const SimpleVector &rhs)` of part_000, lines 65-74: the guard
is `if (*this == rhs) return *this;` — element-wise VALUE equality, not an
identity check — otherwise copy-and-swap with `SimpleVector temp{rhs}`. -/
def assign (a rhs : SV α) : SV α :=
  if svEq a rhs then a else CopyCtor rhs

/-- `SimpleVector(SimpleVector &&other)` of part_000, lines 76-81:
member-wise `std::swap` with the default-initialized members of the new
object.  Returns (the new object, the moved-from source). -/
def moveCtor (other : SV α) : SV α × SV α :=
  (other, emptySV α)

/-- `operator=(SimpleVector &&rhs)` of part_000, lines 83-92: the guard
`&items_ == &(rhs.items_)` is an object-identity check, modelled by the
`isSelf` flag; otherwise `SimpleVector temp{std::move(rhs)}; swap(temp);`.
Returns (this, rhs) after the call. -/
def moveAssign (isSelf : Bool) (a rhs : SV α) : SV α × SV α :=
  if isSelf then (a, rhs)
  else ((moveCtor rhs).1, (moveCtor rhs).2)

/-- `swap(SimpleVector &other)` of part_000, lines 99-104. -/
def swapSV (a b : SV α) : SV α × SV α := (b, a)

/-- `SimpleVector(ReserveProxyObj rhs)` of part_000, lines 94-97:
default-construct, then `Reserve(rhs.GetCapacity())`. -/
def reserveCtor (h : Nat) : SV α := Reserve (emptySV α) h

/-- Buffer-level trace of part_000's move constructor (line 80,
`std::swap(items_, other.items_)`, with `items_` still holding its default
`nullptr`).  Generic `std::swap` is `tmp = move(a); a = move(b);
b = move(tmp);` with `tmp` destroyed afterwards.  Returns (the new
object's buffer, the source's buffer, the allocations freed during the
call). -/
def moveCtorBuf (other : ArrayPtr) : ArrayPtr × ArrayPtr × List Nat :=
  let p1 := ArrayPtr.moveCtor ArrayPtr.empty
  let p2 := ArrayPtr.moveAssign p1.2 other
  let p3 := ArrayPtr.moveAssign p2.2 p1.1
  (p2.1, p3.1, ArrayPtr.dtorFrees p3.2)

/-- Buffer-level trace of part_000's move assignment for distinct objects
(lines 83-92): `SimpleVector temp{std::move(rhs)}; swap(temp);`, then
`temp` — now holding the target's old buffer — is destroyed.  Returns
(the target's buffer, `rhs`'s buffer, the allocations freed during the
call). -/
def moveAssignBuf (thisBuf rhsBuf : ArrayPtr) : ArrayPtr × ArrayPtr × List Nat :=
  let c := moveCtorBuf rhsBuf
  let s := ArrayPtr.swap thisBuf c.1
  (s.1, c.2.1, c.2.2 ++ ArrayPtr.dtorFrees s.2)

end P0

/- ------------------------------------------------------------------ -/
/- Draft 1: src/unnamed/part_001                                       -/
/- ------------------------------------------------------------------ -/

namespace P1

variable {α : Type} [Inhabited α] [DecidableEq α]

/-- `Resize(new_size)` of part_001, lines 237-261.  Identical to part_000's
except that `size_ = new_size` is written inside each branch instead of once
after the `if` chain — an unobservable difference, so the translation
coincides. -/
def Resize (v : SV α) (new_size : Nat) : SV α :=
  if new_size > v.cap then
    ⟨(v.data ++ List.replicate (max new_size (if v.cap = 0 then 1 else v.cap * 2) - v.data.length) default).take new_size,
     max new_size (if v.cap = 0 then 1 else v.cap * 2)⟩
  else if new_size > v.data.length then
    ⟨v.data ++ List.replicate (new_size - v.data.length) default, v.cap⟩
  else
    ⟨v.data.take new_size, v.cap⟩

/-- `ResizeCurrentVector()` of part_001, lines 328-338 (textually identical
to part_000's). -/
def ResizeCurrentVector (v : SV α) : SV α :=
  if v.cap ≤ v.data.length then Resize v (v.data.length + 1)
  else ⟨v.data ++ [default], v.cap⟩

/-- `PushBack(item)` of part_001, lines 115-125 (textually identical to
part_000's). -/
def PushBack (v : SV α) (item : α) : SV α :=
  ⟨(ResizeCurrentVector v).data.set ((ResizeCurrentVector v).data.length - 1) item,
   (ResizeCurrentVector v).cap⟩

/-- `PopBack()` of part_001, lines 128-134: `if (!IsEmpty()) --size_;` — a
silent no-op on an empty vector, with NO assertion. -/
def PopBack (v : SV α) : SV α :=
  if v.data = [] then v else ⟨v.data.take (v.data.length - 1), v.cap⟩

/-- Part_001's `PopBack` contains no `assert`, so the conjunction of its
assert conditions is vacuously true on every state. -/
def PopBackAssertOK (_ : SV α) : Prop := True

/-- `Insert(pos, value)` of part_001, lines 140-168 (textually identical to
part_000's `const&` overload). -/
def Insert (v : SV α) (pos : Nat) (value : α) : SV α × Nat :=
  if pos = v.data.length then
    (PushBack v value, v.data.length)
  else
    ((fun w => ⟨(copyBackwardShift w.data pos (w.data.length - 1)).set pos value, w.cap⟩)
       (ResizeCurrentVector v),
     pos)

/-- `Erase(pos)` of part_001, lines 171-181 (identical to part_000's except
that part_000 additionally asserts `begin() <= pos <= end()`). -/
def Erase (v : SV α) (pos : Nat) : SV α × Nat :=
  (⟨(if pos + 1 < v.data.length
     then moveShiftLeftOne v.data (pos + 1) v.data.length
     else v.data).take (v.data.length - 1), v.cap⟩,
   pos)

/-- `At(index)` of part_001, lines 215-233 (textually identical to
part_000's). -/
def At (v : SV α) (index : Nat) : Except Unit α :=
  if v.data.length ≤ index then Except.error () else Except.ok (v.data.getD index default)

/-- `Reserve(new_capacity)` of part_001, lines 264-274 (textually identical
to part_000's). -/
def Reserve (v : SV α) (new_capacity : Nat) : SV α :=
  if v.cap < new_capacity then ⟨v.data, new_capacity⟩ else v

/-- `Clear()` of part_001, lines 277-280. -/
def Clear (v : SV α) : SV α := ⟨[], v.cap⟩

/-- `SimpleVector(const SimpleVector &other)` of part_001, lines 63-67
(textually identical to part_000's). -/
def CopyCtor (other : SV α) : SV α := ⟨other.data, other.cap⟩

/-- `operator=(const SimpleVector &rhs)` of part_001, lines 69-78: the guard
is `if (&items_ == &(rhs.items_)) return *this;` — an OBJECT-IDENTITY
check, modelled by the `isSelf` flag (true iff `rhs` is the same object as
`*this`) — otherwise copy-and-swap with `SimpleVector temp{rhs}`. -/
def assign (isSelf : Bool) (a rhs : SV α) : SV α :=
  if isSelf then a else CopyCtor rhs

/-- Buffer-level trace of part_001's move constructor (line 85,
`other.items_ = std::exchange(items_, other.items_)`, with `items_` still
holding its default `nullptr`).  `std::exchange` is `old = move(obj);
obj = new_val; return old;` — and since `other.items_` is an lvalue,
`obj = new_val` is `ArrayPtr`'s defaulted SHALLOW copy-assignment, so both
handles alias the source's allocation; the returned temporary (holding
`nullptr`) is then move-assigned into `other.items_` through the
swap-based `operator=`, walks away owning the allocation, and `delete[]`s
it when destroyed at the end of the full-expression.  Returns (the new
object's buffer, the source's buffer, the allocations freed during the
call) — the new object's handle points at a freed allocation whenever the
source owned one. -/
def moveCtorBuf (other : ArrayPtr) : ArrayPtr × ArrayPtr × List Nat :=
  let p1 := ArrayPtr.moveCtor ArrayPtr.empty
  let items1 := ArrayPtr.copyAssign p1.2 other
  let p2 := ArrayPtr.moveAssign other p1.1
  (items1, p2.1, ArrayPtr.dtorFrees p2.2)

/-- Buffer-level trace of part_001's move assignment for distinct objects
(lines 89-98): `SimpleVector temp{std::move(rhs)}; swap(temp);` built on
part_001's move constructor, so it inherits its collapse; then `temp` —
holding the target's old buffer — is destroyed.  Returns (the target's
buffer, `rhs`'s buffer, the allocations freed during the call). -/
def moveAssignBuf (thisBuf rhsBuf : ArrayPtr) : ArrayPtr × ArrayPtr × List Nat :=
  let c := moveCtorBuf rhsBuf
  let s := ArrayPtr.swap thisBuf c.1
  (s.1, c.2.1, c.2.2 ++ ArrayPtr.dtorFrees s.2)

/-- `swap(SimpleVector &other)` of part_001, lines 107-112. -/
def swapSV (a b : SV α) : SV α × SV α := (b, a)

/-- `operator==` of part_001, lines 341-345 (textually identical to
part_000's). -/
def svEq (a b : SV α) : Bool := a.data = b.data

/-- `SimpleVector(ReserveProxyObj rhs)` of part_001, lines 101-104. -/
def reserveCtor (h : Nat) : SV α := Reserve (emptySV α) h

end P1

/- ------------------------------------------------------------------ -/
/- Operation sequences, for comparing the two drafts (claim C4)        -/
/- ------------------------------------------------------------------ -/

/-- One public mutating operation of `SimpleVector`, applied to the current
vector.  `assignFrom w` is copy-assignment from a distinct vector object
whose observable state is `w`. -/
inductive Op (α : Type) where
  | push (x : α)
  | pop
  | ins (i : Nat) (x : α)
  | del (i : Nat)
  | resizeTo (n : Nat)
  | reserveTo (n : Nat)
  | clearAll
  | assignFrom (w : SV α)
  deriving DecidableEq, Repr

/-- Interpret one operation with part_000's code. -/
def stepP0 {α : Type} [Inhabited α] [DecidableEq α] : Op α → SV α → SV α
  | .push x, v => P0.PushBack v x
  | .pop, v => P0.PopBack v
  | .ins i x, v => (P0.Insert v i x).1
  | .del i, v => (P0.Erase v i).1
  | .resizeTo n, v => P0.Resize v n
  | .reserveTo n, v => P0.Reserve v n
  | .clearAll, v => P0.Clear v
  | .assignFrom w, v => P0.assign v w

/-- Interpret one operation with part_001's code (`assignFrom` is from a
distinct object, so its identity guard is false). -/
def stepP1 {α : Type} [Inhabited α] [DecidableEq α] : Op α → SV α → SV α
  | .push x, v => P1.PushBack v x
  | .pop, v => P1.PopBack v
  | .ins i x, v => (P1.Insert v i x).1
  | .del i, v => (P1.Erase v i).1
  | .resizeTo n, v => P1.Resize v n
  | .reserveTo n, v => P1.Reserve v n
  | .clearAll, v => P1.Clear v
  | .assignFrom w, v => P1.assign false v w

/-- Run a sequence of operations with part_000's code. -/
def runP0 {α : Type} [Inhabited α] [DecidableEq α] (ops : List (Op α)) (v : SV α) : SV α :=
  ops.foldl (fun s o => stepP0 o s) v

/-- Run a sequence of operations with part_001's code. -/
def runP1 {α : Type} [Inhabited α] [DecidableEq α] (ops : List (Op α)) (v : SV α) : SV α :=
  ops.foldl (fun s o => stepP1 o s) v

/-- The preconditions the spec states for the public operations: `PopBack`
needs a non-empty vector, `Insert` a position in `[begin, end]`, `Erase` a
position in `[begin, end)`; the remaining operations (including
copy-assignment) have none. -/
def specPre {α : Type} : Op α → SV α → Prop
  | .pop, v => v.data ≠ []
  | .ins i _, v => i ≤ v.data.length
  | .del i, v => i < v.data.length
  | _, _ => True

/-- `specPre` strengthened with the one condition under which the two
drafts' copy-assignments agree: the source is not element-wise equal to the
target, or it has the same capacity. -/
def agreePre {α : Type} : Op α → SV α → Prop
  | .assignFrom w, v => v.data ≠ w.data ∨ v.cap = w.cap
  | o, v => specPre o v

/-- All operations of a sequence meet `agreePre` along the part_000 trace. -/
def agreeRun {α : Type} [Inhabited α] [DecidableEq α] : List (Op α) → SV α → Prop
  | [], _ => True
  | o :: os, v => agreePre o v ∧ agreeRun os (stepP0 o v)

/-- All operations of a sequence meet the spec's stated preconditions along
the part_000 trace. -/
def specRun {α : Type} [Inhabited α] [DecidableEq α] : List (Op α) → SV α → Prop
  | [], _ => True
  | o :: os, v => specPre o v ∧ specRun os (stepP0 o v)

/-- The capacity chosen by `Resize` past capacity, verbatim from
`std::max(new_size, (capacity_ == 0 ? 1 : capacity_ * 2))` in both drafts
(part_000 line 219, part_001 line 241). -/
def growthPolicy (required currentCap : Nat) : Nat :=
  max required (if currentCap = 0 then 1 else currentCap * 2)

/-- A sequence of `PushBack` calls (part_000), one per list element, in
order. -/
def pushN {α : Type} [Inhabited α] [DecidableEq α] (v : SV α) (xs : List α) : SV α :=
  xs.foldl P0.PushBack v

/- ------------------------------------------------------------------ -/
/- Helper lemmas                                                       -/
/- ------------------------------------------------------------------ -/

section Helpers

variable {α : Type} [Inhabited α] [DecidableEq α]

theorem resizeCV_data (v : SV α) :
    (P0.ResizeCurrentVector v).data = v.data ++ [default] := by
  unfold P0.ResizeCurrentVector
  split
  · next h =>
    unfold P0.Resize
    rw [if_pos (Nat.lt_succ_of_le h)]
    have hmax : v.data.length + 1 ≤
        max (v.data.length + 1) (if v.cap = 0 then 1 else v.cap * 2) := le_max_left _ _
    rw [List.take_append_eq_append_take, List.take_of_length_le (by omega),
      List.take_replicate]
    have h1 : v.data.length + 1 - v.data.length = 1 := by omega
    rw [h1, Nat.min_eq_left (by omega), List.replicate_one]
  · rfl

theorem resizeCV_cap (v : SV α) :
    (P0.ResizeCurrentVector v).cap =
      if v.cap ≤ v.data.length then growthPolicy (v.data.length + 1) v.cap else v.cap := by
  unfold P0.ResizeCurrentVector growthPolicy
  split
  · next h =>
    unfold P0.Resize
    rw [if_pos (Nat.lt_succ_of_le h)]
  · rfl

theorem pushBack_data (v : SV α) (x : α) :
    (P0.PushBack v x).data = v.data ++ [x] := by
  unfold P0.PushBack
  rw [resizeCV_data]
  have hlen : (v.data ++ [default]).length = v.data.length + 1 := by simp
  rw [hlen]
  rw [show v.data.length + 1 - 1 = v.data.length from rfl]
  rw [List.set_append_right _ _ (le_refl _)]
  simp

theorem pushBack_cap (v : SV α) (x : α) :
    (P0.PushBack v x).cap =
      if v.cap ≤ v.data.length then growthPolicy (v.data.length + 1) v.cap else v.cap := by
  unfold P0.PushBack
  exact resizeCV_cap v

theorem pushBack_small (v : SV α) (x : α) (h : v.data.length < v.cap) :
    P0.PushBack v x = ⟨v.data ++ [x], v.cap⟩ := by
  have hd := pushBack_data v x
  have hc := pushBack_cap v x
  rw [if_neg (by omega)] at hc
  cases hpb : P0.PushBack v x
  rw [hpb] at hd hc
  simp_all

theorem copyBackwardShift_append (d : List α) (e : α) (i : Nat) (h : i < d.length) :
    copyBackwardShift (d ++ [e]) i d.length = d.take (i + 1) ++ d.drop i := by
  unfold copyBackwardShift
  have h1 : (d ++ [e]).take (i + 1) = d.take (i + 1) :=
    List.take_append_of_le_length (by omega)
  have h2 : (d ++ [e]).drop i = d.drop i ++ [e] :=
    List.drop_append_of_le_length (by omega)
  have h3 : (d.drop i ++ [e]).take (d.length - i) = d.drop i := by
    rw [List.take_append_of_le_length (by rw [List.length_drop]),
      List.take_of_length_le (by rw [List.length_drop])]
  have h4 : (d ++ [e]).drop (d.length + 1) = [] :=
    List.drop_eq_nil_of_le (by simp)
  rw [h1, h2, h3, h4, List.append_nil]

theorem set_shifted (d : List α) (i : Nat) (x : α) (h : i < d.length) :
    (d.take (i + 1) ++ d.drop i).set i x = d.take i ++ x :: d.drop i := by
  have htl : (d.take (i + 1)).length = i + 1 := by
    rw [List.length_take]; omega
  rw [List.set_append_left i x (by omega)]
  rw [List.take_succ, List.getElem?_eq_getElem h, Option.toList_some]
  have htl2 : (d.take i).length = i := by
    rw [List.length_take]; omega
  rw [List.set_append_right i x (by omega)]
  rw [htl2, Nat.sub_self]
  simp

theorem insert_data (v : SV α) (i : Nat) (x : α) (h : i ≤ v.data.length) :
    (P0.Insert v i x).1.data = v.data.take i ++ x :: v.data.drop i := by
  unfold P0.Insert
  by_cases hi : i = v.data.length
  · rw [if_pos hi, pushBack_data]
    subst hi
    rw [List.take_length, List.drop_length]
  · rw [if_neg hi]
    have hlt : i < v.data.length := lt_of_le_of_ne h hi
    show (copyBackwardShift (P0.ResizeCurrentVector v).data i
        ((P0.ResizeCurrentVector v).data.length - 1)).set i x =
      v.data.take i ++ x :: v.data.drop i
    rw [resizeCV_data]
    have hlen : (v.data ++ [default]).length - 1 = v.data.length := by simp
    rw [hlen, copyBackwardShift_append v.data default i hlt, set_shifted v.data i x hlt]

theorem insert_cap (v : SV α) (i : Nat) (x : α) :
    (P0.Insert v i x).1.cap =
      if v.cap ≤ v.data.length then growthPolicy (v.data.length + 1) v.cap else v.cap := by
  unfold P0.Insert
  split
  · exact pushBack_cap v x
  · exact resizeCV_cap v

theorem insert_ret (v : SV α) (i : Nat) (x : α) :
    (P0.Insert v i x).2 = i := by
  unfold P0.Insert
  by_cases hi : i = v.data.length
  · rw [if_pos hi]
    exact hi.symm
  · rw [if_neg hi]

theorem erase_data (v : SV α) (i : Nat) (h : i < v.data.length) :
    (P0.Erase v i).1.data = v.data.take i ++ v.data.drop (i + 1) := by
  unfold P0.Erase
  by_cases hlast : i + 1 < v.data.length
  · rw [if_pos hlast]
    unfold moveShiftLeftOne
    have e1 : i + 1 - 1 = i := rfl
    have e2 : (v.data.drop (i + 1)).take (v.data.length - (i + 1)) = v.data.drop (i + 1) := by
      rw [List.take_of_length_le (by rw [List.length_drop])]
    rw [e1, e2]
    have hlen : (v.data.take i ++ v.data.drop (i + 1)).length = v.data.length - 1 := by
      rw [List.length_append, List.length_take, List.length_drop]
      omega
    rw [List.take_append_of_le_length (by omega), List.take_of_length_le (by omega)]
  · rw [if_neg hlast]
    have hdrop : v.data.drop (i + 1) = [] := List.drop_eq_nil_of_le (by omega)
    have hi : i = v.data.length - 1 := by omega
    rw [hdrop, List.append_nil, hi]

theorem erase_cap (v : SV α) (i : Nat) : (P0.Erase v i).1.cap = v.cap := rfl

theorem erase_ret (v : SV α) (i : Nat) : (P0.Erase v i).2 = i := rfl

theorem pushN_all_fit (xs : List α) (v : SV α) (h : v.data.length + xs.length ≤ v.cap) :
    pushN v xs = ⟨v.data ++ xs, v.cap⟩ := by
  induction xs generalizing v with
  | nil => simp [pushN]
  | cons y ys ih =>
    unfold pushN
    rw [List.foldl_cons, pushBack_small v y (by simp at h; omega)]
    have := ih ⟨v.data ++ [y], v.cap⟩ (by simp at h ⊢; omega)
    unfold pushN at this
    rw [this]
    simp

end Helpers

/- ------------------------------------------------------------------ -/
/- Claims                                                              -/
/- ------------------------------------------------------------------ -/

/-- Claim C1 (confirmed): whenever `PushBack`, `Insert`, or a `Resize` past
capacity needs more slots than the current capacity provides, the new
capacity equals `max(requiredSize, currentCapacity == 0 ? 1 :
currentCapacity * 2)`; and from the empty vector, `PushBack(1)`,
`PushBack(2)`, `PushBack(3)` yield states `([1],cap 1)`, `([1,2],cap 2)`,
`([1,2,3],cap 4)`, then `Resize(2)` yields `([1,2],cap 4)` and `Resize(5)`
yields contents `[1,2,default,default,default]` with capacity ≥ 5. -/
theorem C1_growth_policy {α : Type} [Inhabited α] [DecidableEq α] :
    (∀ (v : SV α) (n : Nat), v.cap < n → (P0.Resize v n).cap = growthPolicy n v.cap) ∧
    (∀ (v : SV α) (x : α), v.cap ≤ v.data.length →
      (P0.PushBack v x).cap = growthPolicy (v.data.length + 1) v.cap) ∧
    (∀ (v : SV α) (i : Nat) (x : α), v.cap ≤ v.data.length →
      (P0.Insert v i x).1.cap = growthPolicy (v.data.length + 1) v.cap) ∧
    (P0.PushBack (emptySV Nat) 1 = ⟨[1], 1⟩ ∧
      P0.PushBack (P0.PushBack (emptySV Nat) 1) 2 = ⟨[1, 2], 2⟩ ∧
      P0.PushBack (P0.PushBack (P0.PushBack (emptySV Nat) 1) 2) 3 = ⟨[1, 2, 3], 4⟩ ∧
      P0.Resize (P0.PushBack (P0.PushBack (P0.PushBack (emptySV Nat) 1) 2) 3) 2 = ⟨[1, 2], 4⟩ ∧
      (P0.Resize (P0.Resize (P0.PushBack (P0.PushBack (P0.PushBack (emptySV Nat) 1) 2) 3) 2) 5).data
        = [1, 2, default, default, default] ∧
      5 ≤ (P0.Resize (P0.Resize (P0.PushBack (P0.PushBack (P0.PushBack (emptySV Nat) 1) 2) 3) 2) 5).cap) := by
  refine ⟨?_, ?_, ?_, by decide, by decide, by decide, by decide, by decide, by decide⟩
  · intro v n h
    unfold P0.Resize growthPolicy
    rw [if_pos h]
  · intro v x h
    rw [pushBack_cap, if_pos h]
  · intro v i x h
    rw [insert_cap, if_pos h]

/-- Witness for C1: the `Resize` growth clause applied to a full vector of
three elements and capacity 4 being resized to 5. -/
theorem C1_growth_policy_witness :
    (⟨[1, 2, 3], 4⟩ : SV Nat).cap < 5 ∧
    (P0.Resize (⟨[1, 2, 3], 4⟩ : SV Nat) 5).cap = growthPolicy 5 4 :=
  ⟨by decide, C1_growth_policy.1 ⟨[1, 2, 3], 4⟩ 5 (by decide)⟩

/-- Claim C2 as stated is false: part_000's copy-assignment guard
`if (*this == rhs)` compares element VALUES, so assignment from an
element-wise-equal vector of different capacity is skipped entirely and
the target keeps capacity 5 instead of taking the source's capacity 1.
Both states are reachable: `Reserve(5); PushBack(1)` and `PushBack(1)`. -/
theorem C2_counterexample :
    (P0.assign ⟨[1], 5⟩ (⟨[1], 1⟩ : SV Nat)).cap ≠ (⟨[1], 1⟩ : SV Nat).cap := by decide

/-- Claim C2 (amended): copy-construction copies elements and capacity in
both drafts; copy-assignment always produces the source's element
sequence, and also its capacity whenever the two vectors are not already
element-wise equal (part_001: unconditionally, its guard being an identity
check); self-assignment is a no-op in both drafts. -/
theorem C2_copy_semantics {α : Type} [Inhabited α] [DecidableEq α] :
    (∀ v : SV α, (P0.CopyCtor v).data = v.data ∧ (P0.CopyCtor v).cap = v.cap) ∧
    (∀ v : SV α, (P1.CopyCtor v).data = v.data ∧ (P1.CopyCtor v).cap = v.cap) ∧
    (∀ a b : SV α, (P0.assign a b).data = b.data) ∧
    (∀ a b : SV α, a.data ≠ b.data → (P0.assign a b).cap = b.cap) ∧
    (∀ a b : SV α, (P1.assign false a b).data = b.data ∧ (P1.assign false a b).cap = b.cap) ∧
    (∀ a : SV α, P0.assign a a = a) ∧
    (∀ a : SV α, P1.assign true a a = a) := by
  refine ⟨fun v => ⟨rfl, rfl⟩, fun v => ⟨rfl, rfl⟩, ?_, ?_, fun a b => ⟨rfl, rfl⟩,
    ?_, fun a => rfl⟩
  · intro a b
    by_cases hd : a.data = b.data
    · simp [P0.assign, P0.svEq, P0.CopyCtor, hd]
    · simp [P0.assign, P0.svEq, P0.CopyCtor, hd]
  · intro a b hne
    simp [P0.assign, P0.svEq, P0.CopyCtor, hne]
  · intro a
    simp [P0.assign, P0.svEq]

/-- Witness for C2: copy-assignment from a vector with different contents
does install the source's capacity. -/
theorem C2_copy_semantics_witness :
    (⟨[1], 5⟩ : SV Nat).data ≠ (⟨[2], 1⟩ : SV Nat).data ∧
    (P0.assign ⟨[1], 5⟩ (⟨[2], 1⟩ : SV Nat)).cap = 1 :=
  ⟨by decide, C2_copy_semantics.2.2.2.1 ⟨[1], 5⟩ ⟨[2], 1⟩ (by decide)⟩

/-- Claim C3 as stated is false: `ArrayPtr`'s move-assignment is a swap,
so after `a = std::move(b)` with `a` owning allocation 1 and `b` owning
allocation 2, `b` owns allocation 1 — it is NOT left empty. -/
theorem C3_counterexample :
    (ArrayPtr.moveAssign ⟨some 1⟩ ⟨some 2⟩).2 ≠ ArrayPtr.empty := by decide

/-- Claim C3 (amended): move-construction transfers ownership and leaves
the source empty; move-assignment with equal pointers (in particular
self-move) is a no-op; move-assignment between buffers with distinct
pointers SWAPS them — the destination takes the source's allocation, and
the source is left holding the destination's former allocation, hence
empty exactly when the destination owned nothing. -/
theorem C3_array_ptr_move :
    (∀ b : ArrayPtr, (ArrayPtr.moveCtor b).1 = ⟨b.raw_ptr⟩ ∧
      (ArrayPtr.moveCtor b).2 = ArrayPtr.empty) ∧
    (∀ a : ArrayPtr, ArrayPtr.moveAssign a a = (a, a)) ∧
    (∀ a b : ArrayPtr, a.raw_ptr = b.raw_ptr → ArrayPtr.moveAssign a b = (a, b)) ∧
    (∀ a b : ArrayPtr, a.raw_ptr ≠ b.raw_ptr →
      ArrayPtr.moveAssign a b = (⟨b.raw_ptr⟩, ⟨a.raw_ptr⟩)) ∧
    (∀ a b : ArrayPtr, a.raw_ptr ≠ b.raw_ptr →
      ((ArrayPtr.moveAssign a b).2 = ArrayPtr.empty ↔ a = ArrayPtr.empty)) := by
  refine ⟨fun b => ⟨rfl, rfl⟩, ?_, ?_, ?_, ?_⟩
  · intro a
    simp [ArrayPtr.moveAssign]
  · intro a b h
    simp [ArrayPtr.moveAssign, h]
  · intro a b h
    simp [ArrayPtr.moveAssign, h]
  · intro a b h
    cases a
    cases b
    simp_all [ArrayPtr.moveAssign, ArrayPtr.empty]

/-- Witness for C3: moving allocation 2 into a buffer owning allocation 1
swaps the two allocations. -/
theorem C3_array_ptr_move_witness :
    (⟨some 1⟩ : ArrayPtr).raw_ptr ≠ (⟨some 2⟩ : ArrayPtr).raw_ptr ∧
    ArrayPtr.moveAssign ⟨some 1⟩ ⟨some 2⟩ = (⟨some 2⟩, ⟨some 1⟩) :=
  ⟨by decide, C3_array_ptr_move.2.2.2.1 ⟨some 1⟩ ⟨some 2⟩ (by decide)⟩

/-- Claim C4 as stated is false on two counts at concrete inputs.
First, copy-assignment: assigning a vector with contents `[1]` and
capacity 1 into a vector with contents `[1]` and capacity 5 is skipped by
part_000 (value-equality guard) but performed by part_001 (identity
guard), leaving capacities 5 and 1 respectively — yet the spec states no
precondition for copy-assignment.  Second, move construction: on a source
whose buffer owns allocation 1, part_000 transfers the buffer cleanly
(nothing freed), while part_001 frees allocation 1 during the call and
leaves the new object's handle pointing at it. -/
theorem C4_counterexample :
    (specPre (Op.assignFrom (⟨[1], 1⟩ : SV Nat)) (⟨[1], 5⟩ : SV Nat) ∧
      runP0 [Op.assignFrom (⟨[1], 1⟩ : SV Nat)] ⟨[1], 5⟩ ≠
        runP1 [Op.assignFrom (⟨[1], 1⟩ : SV Nat)] ⟨[1], 5⟩) ∧
    P0.moveCtorBuf ⟨some 1⟩ ≠ P1.moveCtorBuf ⟨some 1⟩ ∧
    (P0.moveCtorBuf ⟨some 1⟩).2.2 = [] ∧
    (P1.moveCtorBuf ⟨some 1⟩).1.raw_ptr = some 1 ∧
    (P1.moveCtorBuf ⟨some 1⟩).2.2 = [1] :=
  ⟨⟨trivial, by decide⟩, by decide, by decide, by decide, by decide⟩

/-- Claim C4 (amended): the two drafts are behaviorally equivalent on
every sequence of the non-move public operations that meets the stated
preconditions, EXCEPT copy-assignment from a distinct vector that is
element-wise equal to the target but has a different capacity (part_000
skips the copy, part_001 performs it); `PopBack` on non-empty vectors,
`Insert`, `Erase`, `At`, copy construction, swap and the reserving
constructor agree.  Move construction and move assignment, however,
genuinely diverge whenever the source owns an allocation: part_000's
`std::swap`-based move transfers the buffer cleanly and frees nothing
(move assignment frees exactly the target's old buffer), while part_001's
`std::exchange` shallow-copies the handle and the expiring temporary
frees the source's allocation through the swap-based `ArrayPtr`
move-assignment, leaving the destination's handle pointing at a freed
(dangling) buffer; the two drafts' moves agree only on an unallocated
source. -/
theorem C4_draft_equivalence {α : Type} [Inhabited α] [DecidableEq α] :
    (∀ (o : Op α) (v : SV α), agreePre o v → stepP0 o v = stepP1 o v) ∧
    (∀ (ops : List (Op α)) (v : SV α), agreeRun ops v → runP0 ops v = runP1 ops v) ∧
    (∀ v : SV α, v.data ≠ [] → P0.PopBack v = P1.PopBack v) ∧
    (∀ (v : SV α) (i : Nat) (x : α), P0.Insert v i x = P1.Insert v i x) ∧
    (∀ (v : SV α) (i : Nat), P0.Erase v i = P1.Erase v i) ∧
    (∀ (v : SV α) (i : Nat), P0.At v i = P1.At v i) ∧
    (∀ v : SV α, P0.CopyCtor v = P1.CopyCtor v) ∧
    (∀ a b : SV α, P0.swapSV a b = P1.swapSV a b) ∧
    (∀ h : Nat, P0.reserveCtor (α := α) h = P1.reserveCtor h) ∧
    (∀ a : ArrayPtr, P0.moveCtorBuf a = (⟨a.raw_ptr⟩, ArrayPtr.empty, [])) ∧
    (∀ a b : ArrayPtr, P0.moveAssignBuf a b = (⟨b.raw_ptr⟩, ArrayPtr.empty, a.raw_ptr.toList)) ∧
    P1.moveCtorBuf ArrayPtr.empty = P0.moveCtorBuf ArrayPtr.empty ∧
    (∀ n : Nat, P1.moveCtorBuf ⟨some n⟩ = (⟨some n⟩, ArrayPtr.empty, [n]) ∧
      n ∈ (P1.moveCtorBuf ⟨some n⟩).2.2) ∧
    (∀ (a : ArrayPtr) (n : Nat),
      P1.moveAssignBuf a ⟨some n⟩ = (⟨some n⟩, ArrayPtr.empty, n :: a.raw_ptr.toList)) := by
  have hpop : ∀ v : SV α, v.data ≠ [] → P0.PopBack v = P1.PopBack v := by
    intro v hd
    unfold P0.PopBack P1.PopBack
    rw [if_neg hd]
  have hP0buf : ∀ a : ArrayPtr, P0.moveCtorBuf a = (⟨a.raw_ptr⟩, ArrayPtr.empty, []) := by
    intro a
    cases a with
    | mk p =>
      cases p with
      | none => rfl
      | some n => rfl
  have hP0abuf : ∀ a b : ArrayPtr,
      P0.moveAssignBuf a b = (⟨b.raw_ptr⟩, ArrayPtr.empty, a.raw_ptr.toList) := by
    intro a b
    cases b with
    | mk p =>
      cases p with
      | none => rfl
      | some n => rfl
  have hP1buf : ∀ n : Nat, P1.moveCtorBuf ⟨some n⟩ = (⟨some n⟩, ArrayPtr.empty, [n]) ∧
      n ∈ (P1.moveCtorBuf ⟨some n⟩).2.2 := by
    intro n
    refine ⟨rfl, ?_⟩
    show n ∈ [n]
    exact List.mem_singleton.mpr rfl
  have hstep : ∀ (o : Op α) (v : SV α), agreePre o v → stepP0 o v = stepP1 o v := by
    intro o v h
    cases o with
    | pop => exact hpop v h
    | assignFrom w =>
      show P0.assign v w = P1.assign false v w
      by_cases hd : v.data = w.data
      · have hcap : v.cap = w.cap := by
          rcases h with h | h
          · exact absurd hd h
          · exact h
        have hvw : v = w := by
          cases v
          cases w
          simp_all
        subst hvw
        unfold P0.assign
        rw [if_pos (by simp [P0.svEq] : P0.svEq v v = true)]
        rfl
      · simp [P0.assign, P0.svEq, hd, P0.CopyCtor, P1.assign, P1.CopyCtor]
    | push x => rfl
    | ins i x => rfl
    | del i => rfl
    | resizeTo n => rfl
    | reserveTo n => rfl
    | clearAll => rfl
  have hrun : ∀ (ops : List (Op α)) (v : SV α), agreeRun ops v → runP0 ops v = runP1 ops v := by
    intro ops
    induction ops with
    | nil => intro v _; rfl
    | cons o os ih =>
      intro v h
      obtain ⟨h1, h2⟩ := h
      show runP0 os (stepP0 o v) = runP1 os (stepP1 o v)
      rw [← hstep o v h1]
      exact ih (stepP0 o v) h2
  exact ⟨hstep, hrun, hpop, fun v i x => rfl, fun v i => rfl, fun v i => rfl,
    fun v => rfl, fun a b => rfl, fun h => rfl, hP0buf, hP0abuf, rfl, hP1buf,
    fun a n => rfl⟩

/-- Witness for C4: a two-operation run (push 7 then pop) on the empty
vector, meeting all preconditions, on which both drafts agree. -/
theorem C4_draft_equivalence_witness :
    agreeRun [Op.push 7, Op.pop] (emptySV Nat) ∧
    runP0 [Op.push 7, Op.pop] (emptySV Nat) = runP1 [Op.push 7, Op.pop] (emptySV Nat) := by
  have hok : agreeRun [Op.push 7, Op.pop] (emptySV Nat) :=
    ⟨trivial, (by decide : (stepP0 (Op.push 7) (emptySV Nat)).data ≠ []), trivial⟩
  exact ⟨hok, C4_draft_equivalence.2.1 [Op.push 7, Op.pop] (emptySV Nat) hok⟩

/-- Claim C5 (confirmed): `Insert(begin()+i, x)` for `0 ≤ i ≤ n` produces
`take i ++ x :: drop i` — size grows by one, elements below `i` keep their
values, `x` sits at index `i`, the former elements `i..n-1` move to
`i+1..n` in order — returns an iterator to index `i`, and applies the
growth policy exactly when the vector was full.  The target index is the
offset of the position handle in the pre-call vector, i.e. it is computed
before any reallocation. -/
theorem C5_insert {α : Type} [Inhabited α] [DecidableEq α]
    (v : SV α) (i : Nat) (x : α) (h : i ≤ v.data.length) :
    (P0.Insert v i x).1.data = v.data.take i ++ x :: v.data.drop i ∧
    (P0.Insert v i x).1.data.length = v.data.length + 1 ∧
    (∀ j, j < i → (P0.Insert v i x).1.data.getD j default = v.data.getD j default) ∧
    (P0.Insert v i x).1.data.getD i default = x ∧
    (∀ j, i ≤ j → j < v.data.length →
      (P0.Insert v i x).1.data.getD (j + 1) default = v.data.getD j default) ∧
    (P0.Insert v i x).2 = i ∧
    (P0.Insert v i x).1.cap =
      (if v.cap ≤ v.data.length then growthPolicy (v.data.length + 1) v.cap else v.cap) := by
  have hd := insert_data v i x h
  have htl : (v.data.take i).length = i := by
    rw [List.length_take]
    omega
  refine ⟨hd, ?_, ?_, ?_, ?_, insert_ret v i x, insert_cap v i x⟩
  · rw [hd, List.length_append, htl]
    simp only [List.length_cons, List.length_drop]
    omega
  · intro j hj
    rw [hd, List.getD_append _ _ _ _ (by omega)]
    rw [List.getD_eq_getElem?_getD, List.getD_eq_getElem?_getD, List.getElem?_take, if_pos hj]
  · rw [hd, List.getD_append_right _ _ _ _ (by omega), htl, Nat.sub_self, List.getD_cons_zero]
  · intro j hij hjn
    rw [hd, List.getD_append_right _ _ _ _ (by omega), htl]
    have hsucc : j + 1 - i = (j - i) + 1 := by omega
    rw [hsucc, List.getD_cons_succ]
    rw [List.getD_eq_getElem?_getD, List.getD_eq_getElem?_getD, List.getElem?_drop]
    have hidx : i + (j - i) = j := by omega
    rw [hidx]

/-- Witness for C5: inserting 99 at index 1 of the full vector
`([10,20,30], cap 3)`. -/
theorem C5_insert_witness :
    (1 : Nat) ≤ (⟨[10, 20, 30], 3⟩ : SV Nat).data.length ∧
    (P0.Insert (⟨[10, 20, 30], 3⟩ : SV Nat) 1 99).1.data =
      ([10, 20, 30] : List Nat).take 1 ++ 99 :: ([10, 20, 30] : List Nat).drop 1 :=
  ⟨by decide, (C5_insert ⟨[10, 20, 30], 3⟩ 1 99 (by decide)).1⟩

/-- Claim C6 (confirmed): `Erase(begin()+i)` for `0 ≤ i < n` produces
`take i ++ drop (i+1)` — exactly the element at index `i` is removed, the
elements after it shift down one slot in order, those before it keep their
values, size drops by one, capacity is untouched — and the returned
iterator points at index `i`, which equals the new size (i.e. `end()`)
exactly when the last element was removed. -/
theorem C6_erase {α : Type} [Inhabited α] [DecidableEq α]
    (v : SV α) (i : Nat) (h1 : 1 ≤ v.data.length) (h2 : i < v.data.length) :
    (P0.Erase v i).1.data = v.data.take i ++ v.data.drop (i + 1) ∧
    (P0.Erase v i).1.data.length = v.data.length - 1 ∧
    (∀ j, j < i → (P0.Erase v i).1.data.getD j default = v.data.getD j default) ∧
    (∀ j, i ≤ j → j + 1 < v.data.length →
      (P0.Erase v i).1.data.getD j default = v.data.getD (j + 1) default) ∧
    (P0.Erase v i).1.cap = v.cap ∧
    (P0.Erase v i).2 = i ∧
    ((P0.Erase v i).2 = (P0.Erase v i).1.data.length ↔ i = v.data.length - 1) := by
  have hd := erase_data v i h2
  have htl : (v.data.take i).length = i := by
    rw [List.length_take]
    omega
  have hlen : (P0.Erase v i).1.data.length = v.data.length - 1 := by
    rw [hd, List.length_append, htl, List.length_drop]
    omega
  refine ⟨hd, hlen, ?_, ?_, erase_cap v i, erase_ret v i, ?_⟩
  · intro j hj
    rw [hd, List.getD_append _ _ _ _ (by omega)]
    rw [List.getD_eq_getElem?_getD, List.getD_eq_getElem?_getD, List.getElem?_take, if_pos hj]
  · intro j hij hj1
    rw [hd, List.getD_append_right _ _ _ _ (by omega), htl]
    rw [List.getD_eq_getElem?_getD, List.getD_eq_getElem?_getD, List.getElem?_drop]
    have hidx : i + 1 + (j - i) = j + 1 := by omega
    rw [hidx]
  · rw [erase_ret v i, hlen]

/-- Witness for C6: erasing index 1 of `([10,20,30], cap 4)`. -/
theorem C6_erase_witness :
    (1 : Nat) ≤ (⟨[10, 20, 30], 4⟩ : SV Nat).data.length ∧
    (1 : Nat) < (⟨[10, 20, 30], 4⟩ : SV Nat).data.length ∧
    (P0.Erase (⟨[10, 20, 30], 4⟩ : SV Nat) 1).1.data =
      ([10, 20, 30] : List Nat).take 1 ++ ([10, 20, 30] : List Nat).drop 2 :=
  ⟨by decide, by decide, (C6_erase ⟨[10, 20, 30], 4⟩ 1 (by decide) (by decide)).1⟩

/-- Claim C7's final clause is false for part_001: its `PopBack` contains
no assertion, and calling it on an empty vector is a well-defined silent
no-op — a recoverable situation, not an undefined/asserted precondition
violation. -/
theorem C7_counterexample :
    P1.PopBackAssertOK (emptySV Nat) ∧ P1.PopBack (emptySV Nat) = emptySV Nat :=
  ⟨trivial, by decide⟩

/-- Claim C7 (amended): on every non-empty vector `PopBack` removes the
last element — size drops by one, capacity and the values at indices
`[0, size-1)` are untouched — and part_000's assertion cannot fire; on an
empty vector part_000's `assert(!IsEmpty())` fires (precondition
violation), while part_001's `PopBack` silently leaves the vector
unchanged; on non-empty vectors the two drafts coincide. -/
theorem C7_popback {α : Type} [Inhabited α] [DecidableEq α] (v : SV α) (h : v.data ≠ []) :
    (P0.PopBack v).data = v.data.dropLast ∧
    (P0.PopBack v).data.length = v.data.length - 1 ∧
    (P0.PopBack v).cap = v.cap ∧
    (∀ j, j < v.data.length - 1 → (P0.PopBack v).data.getD j default = v.data.getD j default) ∧
    P0.PopBackAssertOK v ∧
    P1.PopBack v = P0.PopBack v ∧
    ¬ P0.PopBackAssertOK (emptySV α) ∧
    P1.PopBack (emptySV α) = emptySV α := by
  refine ⟨?_, ?_, rfl, ?_, h, ?_, ?_, rfl⟩
  · show v.data.take (v.data.length - 1) = v.data.dropLast
    rw [List.dropLast_eq_take]
  · show (v.data.take (v.data.length - 1)).length = v.data.length - 1
    rw [List.length_take]
    omega
  · intro j hj
    show (v.data.take (v.data.length - 1)).getD j default = v.data.getD j default
    rw [List.getD_eq_getElem?_getD, List.getD_eq_getElem?_getD, List.getElem?_take, if_pos hj]
  · unfold P1.PopBack P0.PopBack
    rw [if_neg h]
  · intro hk
    exact hk rfl

/-- Witness for C7: popping the one-element vector `([5], cap 1)`. -/
theorem C7_popback_witness :
    (⟨[5], 1⟩ : SV Nat).data ≠ [] ∧
    (P0.PopBack (⟨[5], 1⟩ : SV Nat)).data = ([5] : List Nat).dropLast :=
  ⟨by decide, (C7_popback ⟨[5], 1⟩ (by decide)).1⟩

/-- Claim C8 (confirmed): `At(i)` signals out-of-range exactly when
`i ≥ size` and otherwise returns the element at index `i`; the vector is
never mutated (the embedding of the non-mutating method is a pure
observer).  In particular `At(size())` always fails and `At(size()-1)`
succeeds on every non-empty vector. -/
theorem C8_at {α : Type} [Inhabited α] [DecidableEq α] (v : SV α) (i : Nat) :
    (P0.At v i = Except.error () ↔ v.data.length ≤ i) ∧
    (∀ h : i < v.data.length, P0.At v i = Except.ok (v.data.get ⟨i, h⟩)) ∧
    P0.At v v.data.length = Except.error () ∧
    (v.data ≠ [] → ∃ x, P0.At v (v.data.length - 1) = Except.ok x) := by
  refine ⟨?_, ?_, ?_, ?_⟩
  · unfold P0.At
    by_cases hle : v.data.length ≤ i
    · simp [hle]
    · simp [hle]
  · intro hlt
    unfold P0.At
    rw [if_neg (by omega)]
    rw [List.getD_eq_getElem v.data default hlt]
    rfl
  · unfold P0.At
    rw [if_pos (le_refl _)]
  · intro hne
    have hlen0 : v.data.length ≠ 0 := fun h0 => hne (List.length_eq_zero.mp h0)
    refine ⟨v.data.getD (v.data.length - 1) default, ?_⟩
    unfold P0.At
    rw [if_neg (by omega)]

/-- Witness for C8: `At(1)` on `([4,5], cap 2)` returns the element 5. -/
theorem C8_at_witness :
    (1 : Nat) < (⟨[4, 5], 2⟩ : SV Nat).data.length ∧
    P0.At (⟨[4, 5], 2⟩ : SV Nat) 1 = Except.ok (([4, 5] : List Nat).get ⟨1, by decide⟩) :=
  ⟨by decide, (C8_at ⟨[4, 5], 2⟩ 1).2.1 (by decide)⟩

/-- Claim C9 (confirmed): from the default-constructed empty vector,
`Reserve(k)` followed by exactly `k` `PushBack` calls yields size `k` and
capacity exactly `k` (no second reallocation); in general `Reserve(c)` with
`c ≤ capacity` is a no-op and `Reserve(c)` with `c > capacity` sets the
capacity to exactly `c`, preserving size and elements. -/
theorem C9_reserve {α : Type} [Inhabited α] [DecidableEq α] :
    (∀ (k : Nat) (xs : List α), xs.length = k →
      pushN (P0.Reserve (emptySV α) k) xs = ⟨xs, k⟩) ∧
    (∀ (v : SV α) (c : Nat), c ≤ v.cap → P0.Reserve v c = v) ∧
    (∀ (v : SV α) (c : Nat), v.cap < c →
      (P0.Reserve v c).data = v.data ∧ (P0.Reserve v c).cap = c) := by
  refine ⟨?_, ?_, ?_⟩
  · intro k xs hk
    have hres : P0.Reserve (emptySV α) k = ⟨[], k⟩ := by
      unfold P0.Reserve emptySV
      by_cases hk0 : 0 < k
      · rw [if_pos hk0]
      · rw [if_neg hk0]
        have hz : k = 0 := by omega
        rw [hz]
    rw [hres, pushN_all_fit xs ⟨[], k⟩ (by simp [hk])]
    simp
  · intro v c h
    unfold P0.Reserve
    rw [if_neg (by omega)]
  · intro v c h
    unfold P0.Reserve
    rw [if_pos h]
    exact ⟨rfl, rfl⟩

/-- Witness for C9: `Reserve(3)` then three pushes gives contents
`[8,9,10]` with capacity exactly 3. -/
theorem C9_reserve_witness :
    ([8, 9, 10] : List Nat).length = 3 ∧
    pushN (P0.Reserve (emptySV Nat) 3) [8, 9, 10] = ⟨[8, 9, 10], 3⟩ :=
  ⟨by decide, C9_reserve.1 3 [8, 9, 10] (by decide)⟩

/-- Claim C10 as stated is false: copy-assignment is a member operation
not in the claim's exclusion list (swap and the move operations), yet
assigning `([2], cap 1)` into `([1], cap 5)` drops the target's capacity
from 5 to 1. -/
theorem C10_counterexample :
    (P0.assign ⟨[1], 5⟩ (⟨[2], 1⟩ : SV Nat)).cap < (⟨[1], 5⟩ : SV Nat).cap := by decide

/-- Claim C10 (amended): no member operation other than swap,
move-assignment/move-construction AND copy-assignment (all of which replace
the whole state) ever decreases the capacity: `PushBack`, `Resize`,
`Reserve` and `Insert` only grow it, while `Clear`, `PopBack`, `Erase` and
(on an invariant-respecting vector) a shrinking `Resize` leave it exactly
unchanged. -/
theorem C10_capacity_monotone {α : Type} [Inhabited α] [DecidableEq α]
    (v : SV α) (x : α) (i n : Nat) :
    v.cap ≤ (P0.PushBack v x).cap ∧
    v.cap ≤ (P0.Resize v n).cap ∧
    v.cap ≤ (P0.Reserve v n).cap ∧
    v.cap ≤ (P0.Insert v i x).1.cap ∧
    (P0.Clear v).cap = v.cap ∧
    (P0.PopBack v).cap = v.cap ∧
    (P0.Erase v i).1.cap = v.cap ∧
    (v.data.length ≤ v.cap → n ≤ v.data.length → (P0.Resize v n).cap = v.cap) := by
  have hgp : ∀ m : Nat, v.cap ≤ growthPolicy m v.cap := by
    intro m
    unfold growthPolicy
    by_cases h0 : v.cap = 0
    · rw [if_pos h0]
      omega
    · rw [if_neg h0]
      omega
  have hpush : v.cap ≤ (P0.PushBack v x).cap := by
    rw [pushBack_cap]
    split
    · exact hgp _
    · exact Nat.le_refl _
  have hresize : v.cap ≤ (P0.Resize v n).cap := by
    by_cases h1 : v.cap < n
    · have hh : (P0.Resize v n).cap = growthPolicy n v.cap := by
        unfold P0.Resize growthPolicy
        rw [if_pos h1]
      rw [hh]
      exact hgp n
    · unfold P0.Resize
      rw [if_neg h1]
      split
      · exact Nat.le_refl _
      · exact Nat.le_refl _
  have hreserve : v.cap ≤ (P0.Reserve v n).cap := by
    unfold P0.Reserve
    split
    · next h => exact Nat.le_of_lt h
    · exact Nat.le_refl _
  have hins : v.cap ≤ (P0.Insert v i x).1.cap := by
    rw [insert_cap]
    split
    · exact hgp _
    · exact Nat.le_refl _
  have hshrink : v.data.length ≤ v.cap → n ≤ v.data.length → (P0.Resize v n).cap = v.cap := by
    intro hinv hn
    unfold P0.Resize
    rw [if_neg (by omega), if_neg (by omega)]
  exact ⟨hpush, hresize, hreserve, hins, rfl, rfl, rfl, hshrink⟩

/-- Witness for C10: a shrinking `Resize(1)` on `([1,2], cap 4)` keeps
capacity 4. -/
theorem C10_capacity_monotone_witness :
    (⟨[1, 2], 4⟩ : SV Nat).data.length ≤ (⟨[1, 2], 4⟩ : SV Nat).cap ∧
    (1 : Nat) ≤ (⟨[1, 2], 4⟩ : SV Nat).data.length ∧
    (P0.Resize (⟨[1, 2], 4⟩ : SV Nat) 1).cap = (⟨[1, 2], 4⟩ : SV Nat).cap :=
  ⟨by decide, by decide,
    (C10_capacity_monotone ⟨[1, 2], 4⟩ 0 0 1).2.2.2.2.2.2.2 (by decide) (by decide)⟩
